import Mathlib

/-!
Shallow embedding of the scriber package (scriber.go, errors.go): input
validation, output-file naming, the transcription invoker, and the
Process pipeline, together with theorems about the spec's claims.
-/

namespace Scriber

/-- Model of Go's os.IsPathSeparator on Linux: only the forward slash. -/
def isPathSeparator (c : Char) : Bool := c = '/'

/-- Helper for filepath.Ext: the input list is the path reversed; returns
the reversed extension (the suffix of the path starting at its last dot),
or none when a separator or the start of the path is met before a dot. -/
def takeToDotRev : List Char → Option (List Char)
  | [] => none
  | c :: rest =>
    if isPathSeparator c then none
    else if c = '.' then some [c]
    else
      match takeToDotRev rest with
      | none => none
      | some l => some (c :: l)

/-- Model of Go's filepath.Ext: the suffix beginning at the final dot in the
final slash-separated element; empty when there is no dot. -/
def filepathExt (s : String) : String :=
  match takeToDotRev s.data.reverse with
  | none => ""
  | some l => String.mk l.reverse

/-- Model of one replacement step of Go's strings.Replace with n = 1:
replaces the first occurrence of old in the list by new. With old empty it
inserts new at the front, as Go does for n = 1. -/
def replaceFirst (old new : List Char) : List Char → List Char
  | [] => if old = [] then new else []
  | c :: rest =>
    if old <+: (c :: rest) then new ++ (c :: rest).drop old.length
    else c :: replaceFirst old new rest

/-- Model of Go's strings.Replace(s, old, new, 1). -/
def stringsReplace1 (s old new : String) : String :=
  String.mk (replaceFirst old.data new.data s.data)

/-- Go constant OutputTypeSubtitles. -/
def OutputTypeSubtitles : String := "subtitles"

/-- Go constant OutputTypeTranscript. -/
def OutputTypeTranscript : String := "transcript"

/-- Membership in the supportedOutputTypes map of scriber.go. -/
def supportedOutputTypes (t : String) : Bool :=
  t == OutputTypeSubtitles || t == OutputTypeTranscript

/-- The five validation error values of errors.go, as a tagged enum. -/
inductive ValidationErr
  | nameRequired
  | extRequired
  | outputTypeUnsupported
  | languageRequired
  | dataRequired
deriving DecidableEq

/-- Model of a Go error value: a leaf message, a fmt.Errorf wrap with %w,
a validation error value, or context.Canceled. -/
inductive GoError
  | msg (s : String)
  | wrap (context : String) (cause : GoError)
  | validation (v : ValidationErr)
  | ctxCanceled
deriving DecidableEq

/-- Model of Go's errors.Is along the %w wrapping chain. -/
def errWraps (e target : GoError) : Bool :=
  match e with
  | GoError.wrap s inner =>
      if GoError.wrap s inner = target then true else errWraps inner target
  | other => if other = target then true else false

/-- The Input struct of scriber.go; Data models the io.ReadCloser
reference, of which only nil-ness matters to the embedded control flow. -/
structure Input where
  Name : String
  OutputType : String
  Language : String
  Data : Option Unit
deriving DecidableEq

/-- Embedding of Input.validate from scriber.go. -/
def validate (i : Input) : Option ValidationErr :=
  if i.Name = "" then some ValidationErr.nameRequired
  else if filepathExt i.Name = "" then some ValidationErr.extRequired
  else if supportedOutputTypes i.OutputType = false then some ValidationErr.outputTypeUnsupported
  else if i.Language = "" then some ValidationErr.languageRequired
  else if i.Data = none then some ValidationErr.dataRequired
  else none

/-- Embedding of generateOutputFileName from scriber.go. -/
def generateOutputFileName (filename : String) (outType : String) : String :=
  let ext := if outType = OutputTypeTranscript then ".txt" else ".srt"
  stringsReplace1 filename (filepathExt filename) ext

/-- Replacement of the last occurrence of old in a list by new, via
first-occurrence replacement on the reversed list. -/
def replaceLast (s old new : List Char) : List Char :=
  (replaceFirst old.reverse new.reverse s.reverse).reverse

/-- Definition following the spec's words for the output naming rule, for
comparison with generateOutputFileName: the output name is the input name
with the final occurrence of its extension replaced by the mapped
extension. -/
def specOutputNameFinalOcc (filename : String) (outType : String) : String :=
  let ext := if outType = OutputTypeTranscript then ".txt" else ".srt"
  String.mk (replaceLast filename.data (filepathExt filename).data ext.data)

/-- Model of a Go context: only the absolute deadline (in nanoseconds)
matters to the embedded control flow; none means no deadline. -/
structure Ctx where
  deadline : Option Nat
deriving DecidableEq

/-- Go's time.Minute in nanoseconds. -/
def goMinute : Nat := 60 * 1000000000

/-- The 5*time.Minute bound used by transcribeAudio. -/
def fiveMinutes : Nat := 5 * goMinute

/-- Model of context.WithTimeout: the child context's deadline is now + d,
capped by the parent's deadline when it has one. -/
def withTimeout (c : Ctx) (now d : Nat) : Ctx :=
  match c.deadline with
  | none => { deadline := some (now + d) }
  | some t => { deadline := some (min t (now + d)) }

/-- Events of the transcribeAudio call: creating the timeout context,
invoking the whisper client with a given context and the input's name,
language and format, and releasing the context's cancel function. -/
inductive TEv
  | withTimeoutCalled (d : Nat)
  | whisperCalled (c : Ctx) (name language format : String)
  | cancelReleased
deriving DecidableEq

/-- Embedding of Scriber.transcribeAudio from scriber.go. The whisper
client's behaviour is an environment parameter; the returned trace records
the context handling around the call. -/
def transcribeAudio (ctx : Ctx) (now : Nat) (whisper : Except GoError String)
    (inp : Input) : Except GoError String × List TEv :=
  let ctx2 := withTimeout ctx now fiveMinutes
  let callEvents :=
    [TEv.withTimeoutCalled fiveMinutes,
     TEv.whisperCalled ctx2 inp.Name inp.Language inp.OutputType]
  match whisper with
  | Except.error e =>
      (Except.error (GoError.wrap "transcription failed" e),
       callEvents ++ [TEv.cancelReleased])
  | Except.ok t => (Except.ok t, callEvents ++ [TEv.cancelReleased])

/-- The Output struct of scriber.go; Text models the []byte transcription. -/
structure Output where
  Name : String
  Text : String
deriving DecidableEq

/-- Events of one Process call, used to reason about resource acquisition,
closing, publishing, and the results channel. -/
inductive Ev
  | pipeCreated
  | goroutineSpawned
  | convertCalled
  | errChRecorded (e : Option GoError)
  | closeInData
  | closePipeReader
  | closePipeWriter
  | closeResultsCh
  | publish (o : Output)
deriving DecidableEq

/-- Environment of one Process call: the outcome of the conversion
goroutine's convertToWavFunc, the whisper client's outcome, the caller's
context and clock, and the resolution of the two select statements (the
ctx.Done branch can be chosen only when the caller's context has been
cancelled). -/
structure ProcEnv where
  convertErr : Option GoError
  whisper : Except GoError String
  ctx : Ctx
  now : Nat
  cancelAtOutcome : Bool
  cancelAtPublish : Bool

/-- Events of the conversion goroutine: it calls convertToWavFunc, records
its outcome in the single-slot error channel (a recorded none models the
goroutine closing the channel after success), and closes the pipe writer
in its deferred function. -/
def goroutineEvents (env : ProcEnv) : List Ev :=
  match env.convertErr with
  | some e =>
      [Ev.convertCalled,
       Ev.errChRecorded (some (GoError.wrap "could not convert to wav" e)),
       Ev.closePipeWriter]
  | none => [Ev.convertCalled, Ev.errChRecorded none, Ev.closePipeWriter]

/-- Value produced by receiving from the error channel: the recorded
conversion error, or none (nil) when the goroutine closed the channel. -/
def errChValue (env : ProcEnv) : Option GoError :=
  match env.convertErr with
  | some e => some (GoError.wrap "could not convert to wav" e)
  | none => none

/-- The deferred closes of Process, run on every exit path registered
after the pipe and goroutine are set up: in.Data.Close() then
pipeReader.Close(). -/
def deferredCloses : List Ev := [Ev.closeInData, Ev.closePipeReader]

/-- Embedding of Scriber.Process from scriber.go, returning the error
result and a linearized trace of the call's events. -/
def Process (env : ProcEnv) (inp : Input) : Option GoError × List Ev :=
  match validate inp with
  | some v => (some (GoError.wrap "invalid input" (GoError.validation v)), [])
  | none =>
    let pre := [Ev.pipeCreated, Ev.goroutineSpawned] ++ goroutineEvents env
    match (transcribeAudio env.ctx env.now env.whisper inp).1 with
    | Except.error e =>
        (some (GoError.wrap "could not transcribe audio" e), pre ++ deferredCloses)
    | Except.ok text =>
        if env.cancelAtOutcome then (some GoError.ctxCanceled, pre ++ deferredCloses)
        else
          match errChValue env with
          | some e => (some e, pre ++ deferredCloses)
          | none =>
            if env.cancelAtPublish then
              (some GoError.ctxCanceled, pre ++ deferredCloses)
            else
              (none,
               pre ++
                 [Ev.publish
                   { Name := generateOutputFileName inp.Name inp.OutputType,
                     Text := text }] ++
                 deferredCloses)

/-- The Outputs published to the results channel during a trace. -/
def publishedOutputs (tr : List Ev) : List Output :=
  tr.filterMap fun e =>
    match e with
    | Ev.publish o => some o
    | _ => none

/-- Number of occurrences of an event in a trace. -/
def countEv (e : Ev) (tr : List Ev) : Nat := tr.count e

/-- Model of the results channel: only its capacity and identity matter. -/
structure ResultChan where
  capacity : Nat
deriving DecidableEq

/-- The Scriber struct of scriber.go, restricted to the resultsCh field
(the logger and injected functions are modelled as environment data). -/
structure Scriber where
  resultsCh : ResultChan

/-- Embedding of New from scriber.go: the results channel is created with
capacity 10. -/
def New : Scriber := { resultsCh := { capacity := 10 } }

/-- Embedding of Scriber.Collect: returns the receiver's results channel. -/
def Collect (s : Scriber) : ResultChan := s.resultsCh

/-! Helper lemmas. -/

/-- Unfolding lemma for stringsReplace1 at the character-list level. -/
theorem stringsReplace1_data (s old new : String) :
    (stringsReplace1 s old new).data = replaceFirst old.data new.data s.data := rfl

/-- Characterization of replaceFirst when the pattern occurs somewhere in
the list: the list splits around the earliest occurrence of the pattern,
and replaceFirst substitutes exactly there. -/
theorem replaceFirst_of_found (old new : List Char) :
    ∀ s : List Char, (∃ i, old <+: s.drop i) →
      ∃ pre post : List Char,
        s = pre ++ old ++ post ∧
        replaceFirst old new s = pre ++ new ++ post ∧
        ∀ j < pre.length, ¬ old <+: s.drop j := by
  intro s
  induction s with
  | nil =>
    intro h
    obtain ⟨i, hi⟩ := h
    rw [List.drop_nil] at hi
    obtain ⟨t, ht⟩ := hi
    have hold : old = [] := (List.append_eq_nil.mp ht).1
    subst hold
    refine ⟨[], [], rfl, ?_, ?_⟩
    · simp [replaceFirst]
    · intro j hj
      simp at hj
  | cons c rest ih =>
    intro h
    by_cases hp : old <+: (c :: rest)
    · obtain ⟨t, ht⟩ := hp
      refine ⟨[], (c :: rest).drop old.length, ?_, ?_, ?_⟩
      · rw [← ht, List.drop_left]
        simp
      · have hp2 : old <+: (c :: rest) := ⟨t, ht⟩
        simp [replaceFirst, hp2]
      · intro j hj
        simp at hj
    · obtain ⟨i, hi⟩ := h
      cases i with
      | zero =>
        rw [List.drop_zero] at hi
        exact absurd hi hp
      | succ k =>
        rw [List.drop_succ_cons] at hi
        obtain ⟨pre2, post2, h1, h2, h3⟩ := ih ⟨k, hi⟩
        refine ⟨c :: pre2, post2, ?_, ?_, ?_⟩
        · rw [h1]
          simp
        · simp [replaceFirst, hp, h2]
        · intro j hj
          cases j with
          | zero =>
            rw [List.drop_zero]
            exact hp
          | succ k2 =>
            rw [List.drop_succ_cons]
            refine h3 k2 ?_
            simp only [List.length_cons] at hj
            omega

/-- The list returned by takeToDotRev is an initial segment of its input. -/
theorem takeToDotRev_front :
    ∀ r l : List Char, takeToDotRev r = some l → ∃ t, r = l ++ t := by
  intro r
  induction r with
  | nil =>
    intro l h
    simp [takeToDotRev] at h
  | cons c rest ih =>
    intro l h
    unfold takeToDotRev at h
    by_cases hsep : isPathSeparator c = true
    · rw [if_pos hsep] at h
      simp at h
    · by_cases hdot : c = '.'
      · rw [if_neg hsep, if_pos hdot] at h
        injection h with h2
        refine ⟨rest, ?_⟩
        rw [← h2]
        rfl
      · rw [if_neg hsep, if_neg hdot] at h
        cases htk : takeToDotRev rest with
        | none =>
          rw [htk] at h
          simp at h
        | some l2 =>
          rw [htk] at h
          injection h with h2
          obtain ⟨t, ht⟩ := ih l2 htk
          refine ⟨t, ?_⟩
          rw [← h2, List.cons_append, ← ht]

/-- When a file name has a nonempty extension, the extension is a suffix
of the name. -/
theorem filepathExt_suffix (s : String) :
    filepathExt s ≠ "" → ∃ t : List Char, s.data = t ++ (filepathExt s).data := by
  unfold filepathExt
  cases htk : takeToDotRev s.data.reverse with
  | none =>
    intro h
    exact absurd rfl h
  | some l =>
    intro h
    obtain ⟨t, ht⟩ := takeToDotRev_front _ l htk
    refine ⟨t.reverse, ?_⟩
    have h2 : s.data = (l ++ t).reverse := by
      have h3 := congrArg List.reverse ht
      rw [List.reverse_reverse] at h3
      exact h3
    rw [h2, List.reverse_append]

/-- Every GoError chain matches itself under errWraps. -/
theorem errWraps_self (e : GoError) : errWraps e e = true := by
  cases e <;> simp [errWraps]

/-! Concrete environments and inputs used by witnesses and counterexamples. -/

/-- Environment in which conversion and transcription both succeed, the
transcription text is "hello world", and no cancellation fires. -/
def envHello : ProcEnv :=
  { convertErr := none, whisper := Except.ok "hello world",
    ctx := { deadline := none }, now := 0,
    cancelAtOutcome := false, cancelAtPublish := false }

/-- The lecture.mp4 submission of the spec's concrete scenario. -/
def inpLecture : Input :=
  { Name := "lecture.mp4", OutputType := OutputTypeSubtitles,
    Language := "en", Data := some () }

/-- Submission whose name has no extension. -/
def inpClip : Input :=
  { Name := "clip", OutputType := OutputTypeSubtitles,
    Language := "en", Data := some () }

/-- Submission with a data stream but an empty language. -/
def inpNoLang : Input :=
  { Name := "a.mp4", OutputType := OutputTypeSubtitles,
    Language := "", Data := some () }

/-- Environment in which the conversion goroutine fails and the whisper
call also fails. -/
def envBothFail : ProcEnv :=
  { convertErr := some (GoError.msg "ffmpeg failed"),
    whisper := Except.error (GoError.msg "read failed"),
    ctx := { deadline := none }, now := 0,
    cancelAtOutcome := false, cancelAtPublish := false }

/-- Environment in which the conversion goroutine fails but the whisper
call succeeds and no cancellation fires. -/
def envConvFail : ProcEnv :=
  { convertErr := some (GoError.msg "ffmpeg failed"),
    whisper := Except.ok "partial text",
    ctx := { deadline := none }, now := 0,
    cancelAtOutcome := false, cancelAtPublish := false }

/-- Environment in which both steps succeed but the caller's cancellation
is taken at the error-channel select. -/
def envCancelOutcome : ProcEnv :=
  { convertErr := none, whisper := Except.ok "hello world",
    ctx := { deadline := none }, now := 0,
    cancelAtOutcome := true, cancelAtPublish := false }

/-! Claim theorems. -/

/-- C1: for every Submission that passes validation and whose transcoding
and transcription both succeed without cancellation, Process returns nil
and exactly one Result is published to the collector, whose text equals
the transcription bytes and whose name follows the naming rule. -/
theorem process_success_publishes_one (env : ProcEnv) (inp : Input) (text : String)
    (hv : validate inp = none) (hc : env.convertErr = none)
    (hw : env.whisper = Except.ok text)
    (h1 : env.cancelAtOutcome = false) (h2 : env.cancelAtPublish = false) :
    (Process env inp).1 = none ∧
      publishedOutputs (Process env inp).2 =
        [{ Name := generateOutputFileName inp.Name inp.OutputType, Text := text }] := by
  unfold Process
  rw [hv]
  simp [transcribeAudio, hw, h1, h2, errChValue, hc, publishedOutputs,
        goroutineEvents, deferredCloses]

/-- Witness for C1 at the spec's concrete scenario: lecture.mp4,
Subtitles, language en, transcription "hello world" publishes the single
Result named lecture.srt. -/
theorem process_success_publishes_one_witness :
    (Process envHello inpLecture).1 = none ∧
    publishedOutputs (Process envHello inpLecture).2 =
      [{ Name := generateOutputFileName "lecture.mp4" OutputTypeSubtitles,
         Text := "hello world" }] ∧
    generateOutputFileName "lecture.mp4" OutputTypeSubtitles = "lecture.srt" := by
  have h := process_success_publishes_one envHello inpLecture "hello world"
    (by decide) rfl rfl rfl rfl
  exact ⟨h.1, h.2, by decide⟩

/-- C2 counterexample: for the input name a.mp4.mp4 the code replaces the
first occurrence of the extension .mp4, not the final one as the spec's
naming rule states. -/
theorem generateOutputFileName_final_occurrence_counterexample :
    generateOutputFileName "a.mp4.mp4" OutputTypeSubtitles = "a.srt.mp4" ∧
    specOutputNameFinalOcc "a.mp4.mp4" OutputTypeSubtitles = "a.mp4.srt" ∧
    ¬ generateOutputFileName "a.mp4.mp4" OutputTypeSubtitles =
        specOutputNameFinalOcc "a.mp4.mp4" OutputTypeSubtitles := by decide

/-- C2 amended: for every input name with a nonempty extension, the output
name is the input name with the FIRST occurrence of the final-extension
substring replaced by .srt (Subtitles and every other kind) or .txt
(Transcript); no occurrence before the replaced one exists. -/
theorem generateOutputFileName_replaces_first_occurrence (name kind : String)
    (h : filepathExt name ≠ "") :
    ∃ pre post : List Char,
      name.data = pre ++ (filepathExt name).data ++ post ∧
      (generateOutputFileName name kind).data =
        pre ++ (if kind = OutputTypeTranscript then ".txt" else ".srt").data ++ post ∧
      ∀ j < pre.length, ¬ (filepathExt name).data <+: name.data.drop j := by
  obtain ⟨t, ht⟩ := filepathExt_suffix name h
  have hocc : ∃ i, (filepathExt name).data <+: name.data.drop i := by
    refine ⟨t.length, ?_⟩
    rw [ht, List.drop_left]
  obtain ⟨pre, post, h1, h2, h3⟩ :=
    replaceFirst_of_found (filepathExt name).data
      (if kind = OutputTypeTranscript then ".txt" else ".srt").data name.data hocc
  refine ⟨pre, post, h1, ?_, h3⟩
  simp only [generateOutputFileName, stringsReplace1_data]
  exact h2

/-- Witness for the amended C2 at the name a.mp4.mp4. -/
theorem generateOutputFileName_replaces_first_occurrence_witness :
    filepathExt "a.mp4.mp4" ≠ "" ∧
    ∃ pre post : List Char,
      ("a.mp4.mp4" : String).data = pre ++ (filepathExt "a.mp4.mp4").data ++ post ∧
      (generateOutputFileName "a.mp4.mp4" OutputTypeSubtitles).data =
        pre ++
          (if OutputTypeSubtitles = OutputTypeTranscript then ".txt" else ".srt").data
          ++ post ∧
      ∀ j < pre.length,
        ¬ (filepathExt "a.mp4.mp4").data <+: ("a.mp4.mp4" : String).data.drop j :=
  ⟨by decide,
   generateOutputFileName_replaces_first_occurrence "a.mp4.mp4" OutputTypeSubtitles
     (by decide)⟩

/-- C3: validation checks the five conditions in the fixed order
NameRequired, ExtensionRequired, UnsupportedOutputKind, LanguageRequired,
DataRequired, returns the error of the first violated condition, and
returns nothing when none is violated. -/
theorem validate_first_violation (i : Input) :
    (validate i = none ↔
      i.Name ≠ "" ∧ filepathExt i.Name ≠ "" ∧
      supportedOutputTypes i.OutputType = true ∧ i.Language ≠ "" ∧ i.Data ≠ none) ∧
    (validate i = some ValidationErr.nameRequired ↔ i.Name = "") ∧
    (validate i = some ValidationErr.extRequired ↔
      i.Name ≠ "" ∧ filepathExt i.Name = "") ∧
    (validate i = some ValidationErr.outputTypeUnsupported ↔
      i.Name ≠ "" ∧ filepathExt i.Name ≠ "" ∧
      supportedOutputTypes i.OutputType = false) ∧
    (validate i = some ValidationErr.languageRequired ↔
      i.Name ≠ "" ∧ filepathExt i.Name ≠ "" ∧
      supportedOutputTypes i.OutputType = true ∧ i.Language = "") ∧
    (validate i = some ValidationErr.dataRequired ↔
      i.Name ≠ "" ∧ filepathExt i.Name ≠ "" ∧
      supportedOutputTypes i.OutputType = true ∧ i.Language ≠ "" ∧ i.Data = none) := by
  unfold validate
  split_ifs with h1 h2 h3 h4 h5 <;> simp_all

/-- C4 counterexample: when the transcoding step fails and the
transcription step also fails, Process returns the transcription error,
which does not wrap the transcoding failure. -/
theorem process_transcoding_failure_counterexample :
    (Process envBothFail inpLecture).1 =
      some (GoError.wrap "could not transcribe audio"
        (GoError.wrap "transcription failed" (GoError.msg "read failed"))) ∧
    errWraps
      (GoError.wrap "could not transcribe audio"
        (GoError.wrap "transcription failed" (GoError.msg "read failed")))
      (GoError.msg "ffmpeg failed") = false := by decide

/-- C4 amended: for every validated Submission whose transcoding step
fails, no Result is published; and when additionally the transcription
step succeeds and cancellation is not taken at the reconciliation select,
Process returns an error wrapping the transcoding failure. -/
theorem process_transcoding_failure_amended (env : ProcEnv) (inp : Input) (c : GoError)
    (hv : validate inp = none) (hc : env.convertErr = some c) :
    publishedOutputs (Process env inp).2 = [] ∧
    ∀ text, env.whisper = Except.ok text → env.cancelAtOutcome = false →
      (Process env inp).1 = some (GoError.wrap "could not convert to wav" c) ∧
      errWraps (GoError.wrap "could not convert to wav" c) c = true := by
  constructor
  · unfold Process
    rw [hv]
    cases hw : env.whisper <;>
      cases h1 : env.cancelAtOutcome <;>
        cases h2 : env.cancelAtPublish <;>
          simp [transcribeAudio, errChValue, hc, publishedOutputs,
                goroutineEvents, deferredCloses]
  · intro text hw h1
    constructor
    · unfold Process
      rw [hv]
      simp [transcribeAudio, hw, h1, errChValue, hc]
    · simp [errWraps, errWraps_self c]

/-- Witness for the amended C4: transcoding fails with "ffmpeg failed",
transcription succeeds, nothing is published and the returned error wraps
the transcoding failure. -/
theorem process_transcoding_failure_amended_witness :
    publishedOutputs (Process envConvFail inpLecture).2 = [] ∧
    (Process envConvFail inpLecture).1 =
      some (GoError.wrap "could not convert to wav" (GoError.msg "ffmpeg failed")) ∧
    errWraps (GoError.wrap "could not convert to wav" (GoError.msg "ffmpeg failed"))
      (GoError.msg "ffmpeg failed") = true := by
  have h := process_transcoding_failure_amended envConvFail inpLecture
    (GoError.msg "ffmpeg failed") (by decide) rfl
  exact ⟨h.1, (h.2 "partial text" rfl rfl).1, (h.2 "partial text" rfl rfl).2⟩

/-- C5: after the transcription step returns successfully, if cancellation
is taken at the select waiting for the transcoding outcome, Process
returns the cancellation error (not a transcoding error) and publishes
nothing; if cancellation is taken at the publish select, the publish is
aborted, the cancellation error is returned and nothing is published. -/
theorem process_cancellation_respected (env : ProcEnv) (inp : Input) (text : String)
    (hv : validate inp = none) (hw : env.whisper = Except.ok text) :
    (env.cancelAtOutcome = true →
      (Process env inp).1 = some GoError.ctxCanceled ∧
      publishedOutputs (Process env inp).2 = []) ∧
    (env.convertErr = none → env.cancelAtOutcome = false →
      env.cancelAtPublish = true →
      (Process env inp).1 = some GoError.ctxCanceled ∧
      publishedOutputs (Process env inp).2 = []) := by
  constructor
  · intro h1
    unfold Process
    rw [hv]
    cases hce : env.convertErr <;>
      simp [transcribeAudio, hw, h1, errChValue, hce, publishedOutputs,
            goroutineEvents, deferredCloses]
  · intro hc h1 h2
    unfold Process
    rw [hv]
    simp [transcribeAudio, hw, h1, h2, errChValue, hc, publishedOutputs,
          goroutineEvents, deferredCloses]

/-- Witness for C5: with the cancellation taken at the outcome select,
Process returns the cancellation error and publishes nothing. -/
theorem process_cancellation_respected_witness :
    (Process envCancelOutcome inpLecture).1 = some GoError.ctxCanceled ∧
    publishedOutputs (Process envCancelOutcome inpLecture).2 = [] := by
  have h := process_cancellation_respected envCancelOutcome inpLecture "hello world"
    (by decide) rfl
  exact h.1 rfl

/-- C6 counterexample: a Submission with a present data stream that fails
validation exits Process without closing the stream, so the closes do not
happen on every exit path. -/
theorem process_validation_exit_no_close_counterexample :
    validate inpNoLang = some ValidationErr.languageRequired ∧
    (Process envHello inpNoLang).2 = [] ∧
    countEv Ev.closeInData (Process envHello inpNoLang).2 = 0 := by decide

/-- C6 amended: on every exit path of Process taken after validation
passes, the submission's data stream and the pipe's read end are each
closed exactly once; on a validation-failure exit no resource event
occurs at all (in particular the input stream is not closed). -/
theorem process_closes_each_once_after_validation (env : ProcEnv) (inp : Input) :
    (validate inp = none →
      countEv Ev.closeInData (Process env inp).2 = 1 ∧
      countEv Ev.closePipeReader (Process env inp).2 = 1) ∧
    ∀ v, validate inp = some v → (Process env inp).2 = [] := by
  constructor
  · intro hv
    unfold Process
    rw [hv]
    cases hw : env.whisper <;>
      cases hce : env.convertErr <;>
        cases h1 : env.cancelAtOutcome <;>
          cases h2 : env.cancelAtPublish <;>
            simp [transcribeAudio, errChValue, hce, countEv, goroutineEvents,
                  deferredCloses, List.count_append, List.count_cons]
  · intro v hv
    unfold Process
    rw [hv]

/-- Witness for the amended C6 on the successful lecture.mp4 run. -/
theorem process_closes_each_once_after_validation_witness :
    countEv Ev.closeInData (Process envHello inpLecture).2 = 1 ∧
    countEv Ev.closePipeReader (Process envHello inpLecture).2 = 1 :=
  (process_closes_each_once_after_validation envHello inpLecture).1 (by decide)

/-- C7: for every Submission that fails validation, Process returns the
wrapped validation error immediately with an empty trace: no pipe, no
goroutine and no conversion call happen before validation passes. -/
theorem process_validation_error_immediate (env : ProcEnv) (inp : Input)
    (v : ValidationErr) (h : validate inp = some v) :
    Process env inp =
      (some (GoError.wrap "invalid input" (GoError.validation v)), []) ∧
    countEv Ev.pipeCreated (Process env inp).2 = 0 ∧
    countEv Ev.goroutineSpawned (Process env inp).2 = 0 ∧
    countEv Ev.convertCalled (Process env inp).2 = 0 := by
  have h1 : Process env inp =
      (some (GoError.wrap "invalid input" (GoError.validation v)), []) := by
    unfold Process
    rw [h]
  refine ⟨h1, ?_, ?_, ?_⟩ <;> rw [h1] <;> rfl

/-- Witness for C7 at the spec's concrete scenario: the input named clip
has no extension and yields ExtensionRequired with no conversion call. -/
theorem process_validation_error_immediate_witness :
    validate inpClip = some ValidationErr.extRequired ∧
    Process envHello inpClip =
      (some (GoError.wrap "invalid input"
        (GoError.validation ValidationErr.extRequired)), []) ∧
    countEv Ev.convertCalled (Process envHello inpClip).2 = 0 := by
  have h := process_validation_error_immediate envHello inpClip
    ValidationErr.extRequired (by decide)
  exact ⟨by decide, h.1, h.2.2.2⟩

/-- C8: every transcribeAudio call invokes the whisper client with a
context whose deadline is at most 5 minutes (5 * 60 * 10^9 nanoseconds)
from the time of invocation, and the timeout's cancel is released exactly
once, as the last action of the call, on success and on failure alike. -/
theorem transcribeAudio_bounded_deadline (ctx : Ctx) (now : Nat)
    (whisper : Except GoError String) (inp : Input) :
    (∃ c : Ctx,
      (transcribeAudio ctx now whisper inp).2 =
        [TEv.withTimeoutCalled fiveMinutes,
         TEv.whisperCalled c inp.Name inp.Language inp.OutputType,
         TEv.cancelReleased] ∧
      ∃ d, c.deadline = some d ∧ d ≤ now + fiveMinutes) ∧
    fiveMinutes = 5 * 60 * 1000000000 ∧
    (transcribeAudio ctx now whisper inp).2.getLast? = some TEv.cancelReleased ∧
    (transcribeAudio ctx now whisper inp).2.count TEv.cancelReleased = 1 := by
  refine ⟨⟨withTimeout ctx now fiveMinutes, ?_, ?_⟩, by decide, ?_, ?_⟩
  · cases whisper <;> rfl
  · unfold withTimeout
    cases ctx.deadline with
    | none => exact ⟨now + fiveMinutes, rfl, Nat.le_refl _⟩
    | some t => exact ⟨min t (now + fiveMinutes), rfl, Nat.min_le_right _ _⟩
  · cases whisper <;> rfl
  · cases whisper <;>
      simp [transcribeAudio, List.count_append, List.count_cons]

/-- C9: the results channel is created by New with capacity 10, Collect
always returns exactly that channel of its receiver, and no Process trace
ever contains a close of the results channel. -/
theorem resultsChannel_contract :
    New.resultsCh.capacity = 10 ∧
    (∀ s : Scriber, Collect s = s.resultsCh) ∧
    ∀ (env : ProcEnv) (inp : Input),
      countEv Ev.closeResultsCh (Process env inp).2 = 0 := by
  refine ⟨rfl, fun s => rfl, ?_⟩
  intro env inp
  unfold Process
  cases hval : validate inp with
  | none =>
    cases hw : env.whisper <;>
      cases hce : env.convertErr <;>
        cases h1 : env.cancelAtOutcome <;>
          cases h2 : env.cancelAtPublish <;>
            simp [transcribeAudio, errChValue, hce, countEv, goroutineEvents,
                  deferredCloses, List.count_append, List.count_cons]
  | some v => rfl

/-- C10: for every input name, generateOutputFileName uses the .txt
extension exactly when the kind equals Transcript, and the .srt extension
for every other kind, including kinds outside the supported enum. -/
theorem generateOutputFileName_kind_mapping (name kind : String) :
    (kind ≠ OutputTypeTranscript →
      generateOutputFileName name kind =
        stringsReplace1 name (filepathExt name) ".srt") ∧
    (kind = OutputTypeTranscript →
      generateOutputFileName name kind =
        stringsReplace1 name (filepathExt name) ".txt") := by
  constructor <;> intro h <;> simp [generateOutputFileName, h]

/-- Witness for C10 at a supported and an unsupported kind. -/
theorem generateOutputFileName_kind_mapping_witness :
    generateOutputFileName "foo.mp4" OutputTypeSubtitles =
      stringsReplace1 "foo.mp4" (filepathExt "foo.mp4") ".srt" ∧
    generateOutputFileName "bar.mp4" OutputTypeTranscript =
      stringsReplace1 "bar.mp4" (filepathExt "bar.mp4") ".txt" ∧
    generateOutputFileName "foo.mp4" OutputTypeSubtitles = "foo.srt" := by
  refine ⟨(generateOutputFileName_kind_mapping "foo.mp4" OutputTypeSubtitles).1
      (by decide),
    (generateOutputFileName_kind_mapping "bar.mp4" OutputTypeTranscript).2 rfl,
    by decide⟩

end Scriber
